import Mathlib

/-!
Verification of the filter-selection / state-machine logic of
`FaceFilters.py` (class `FaceFilterSystem`), shallowly embedded in Lean.

External collaborators (OpenCV capture/display, the mediapipe landmark
model, the image assets) are modelled as opaque parameters; the logic of
`process_frame` and `run` (key handling, asset cycling, state toggling,
loop exit and resource release) is translated directly from the source.
-/

namespace FaceFilters

/-- The five filter kinds appearing as keys of the `active_filters`
dictionary: `glasses`, `hat`, `nose`, `mouth` in the STANDARD
configuration and `face` in the FACE_MASK configuration. -/
inductive FilterKind : Type
  | glasses
  | hat
  | nose
  | mouth
  | face
deriving DecidableEq, Repr

/-- Direction of an asset-cycling command. -/
inductive Direction : Type
  | next
  | prev
deriving DecidableEq, Repr

/-- `(current_asset_idx + 1) % len(assets)` — the cycle-next update from
`FaceFilterSystem.run` (e.g. lines 100-102).  Python `%` with a positive
modulus is Euclidean remainder, i.e. `Int.emod`. -/
def cycleNext (idx : Int) (n : Nat) : Int :=
  (idx + 1) % (n : Int)

/-- `(current_asset_idx - 1) % len(assets)` — the cycle-prev update from
`FaceFilterSystem.run` (e.g. lines 104-106). -/
def cyclePrev (idx : Int) (n : Nat) : Int :=
  (idx - 1) % (n : Int)

/-- One cycling command in a given direction. -/
def cycleDir (d : Direction) (idx : Int) (n : Nat) : Int :=
  match d with
  | .next => cycleNext idx n
  | .prev => cyclePrev idx n

/-- The selection index reached from index 0 after a sequence of
cycle-next / cycle-prev commands on a store of `n` assets. -/
def cycleFrom0 (n : Nat) (ds : List Direction) : Int :=
  ds.foldl (fun i d => cycleDir d i n) 0

/-- Modelled from the spec: the filter constructors
(`GlassesFilter`, `HatFilter`, `NoseFilter`, `MouthFilter`,
`FaceMaskFilter`) live in `utils/Filters`, which is not part of the
sources here; per the spec a freshly loaded store's current selection
index is 0 ("`current()` is deterministic (index 0)"; switching
configurations recreates filters with "selection indices reset to 0"). -/
def initIdx : Int := 0

/-- The shape of the `active_filters` dictionary: either the four
independent standard filters (insertion order glasses, hat, nose,
mouth), each carrying its `current_asset_idx`, or the single face-mask
filter. -/
inductive ActiveFilters : Type
  | standard (glassesIdx hatIdx noseIdx mouthIdx : Int)
  | faceMask (faceIdx : Int)
deriving DecidableEq, Repr

/-- The dictionary keys of the active filters, in insertion (iteration)
order. -/
def ActiveFilters.kinds : ActiveFilters → List FilterKind
  | .standard _ _ _ _ => [.glasses, .hat, .nose, .mouth]
  | .faceMask _ => [.face]

/-- The mutable session state of `FaceFilterSystem`: the
`is_face_selected` flag and the `active_filters` dictionary. -/
structure Session : Type where
  is_face_selected : Bool
  active_filters : ActiveFilters
deriving DecidableEq, Repr

/-- The state set up by `FaceFilterSystem.__init__` (lines 32-38):
`is_face_selected = False` and the four standard filters, each freshly
constructed (selection index `initIdx`). -/
def initSession : Session :=
  { is_face_selected := false
    active_filters := .standard initIdx initIdx initIdx initIdx }

/-- A session is consistent when the flag agrees with the shape of the
dictionary; every reachable state of the program satisfies this. -/
def Session.consistent (s : Session) : Bool :=
  match s.active_filters with
  | .standard _ _ _ _ => !s.is_face_selected
  | .faceMask _ => s.is_face_selected

/-- `self.active_filters[k].current_asset_idx = (... ± 1) % len(assets)`:
cycle the store of kind `k` inside the dictionary.  Accessing a kind
that is not a key of the dictionary is a Python `KeyError`, modelled as
`none`.  `counts k` is `len(self.active_filters[k].assets)`. -/
def cycleFilter (counts : FilterKind → Nat) (af : ActiveFilters)
    (k : FilterKind) (d : Direction) : Option ActiveFilters :=
  match af, k with
  | .standard g h n m, .glasses => some (.standard (cycleDir d g (counts .glasses)) h n m)
  | .standard g h n m, .hat => some (.standard g (cycleDir d h (counts .hat)) n m)
  | .standard g h n m, .nose => some (.standard g h (cycleDir d n (counts .nose)) m)
  | .standard g h n m, .mouth => some (.standard g h n (cycleDir d m (counts .mouth)))
  | .standard _ _ _ _, .face => none
  | .faceMask i, .face => some (.faceMask (cycleDir d i (counts .face)))
  | .faceMask _, _ => none

/-- The `key == ord('f')` branch (lines 131-143): flip
`is_face_selected` and rebuild `active_filters` from scratch for the new
configuration, with freshly constructed filters. -/
def toggle (s : Session) : Session :=
  let b := !s.is_face_selected
  { is_face_selected := b
    active_filters :=
      if b then .faceMask initIdx
      else .standard initIdx initIdx initIdx initIdx }

def keyE : Nat := 101
def keyQ : Nat := 113
def keyD : Nat := 100
def keyA : Nat := 97
def keyW : Nat := 119
def keyS : Nat := 115
def keyC : Nat := 99
def keyZ : Nat := 122
def keyF : Nat := 102
def keyM : Nat := 109
def keyN : Nat := 110
def keyL : Nat := 108

/-- The keys that cycle one of the four standard filters
(`e`/`q` hat, `d`/`a` glasses, `w`/`s` nose, `c`/`z` mouth). -/
def standardCycleKeys : List Nat := [keyE, keyQ, keyD, keyA, keyW, keyS, keyC, keyZ]

/-- The keys that cycle the face-mask filter (`m`/`n`). -/
def faceCycleKeys : List Nat := [keyM, keyN]

/-- All keys the `if`/`elif` chain recognizes. -/
def recognizedKeys : List Nat :=
  standardCycleKeys ++ [keyF] ++ faceCycleKeys ++ [keyL]

/-- Result of handling one key event: the updated session and whether
the loop `break`s (the quit command). -/
structure StepResult : Type where
  session : Session
  quit : Bool
deriving DecidableEq, Repr

/-- Convenience: a cycling branch leaves `is_face_selected` unchanged
and only rewrites the dictionary; a `KeyError` is propagated. -/
def cycleBranch (counts : FilterKind → Nat) (s : Session)
    (k : FilterKind) (d : Direction) : Option StepResult :=
  (cycleFilter counts s.active_filters k d).map
    (fun af => ⟨{ s with active_filters := af }, false⟩)

/-- The `if`/`elif` chain of `FaceFilterSystem.run` (lines 99-153),
translated branch for branch.  `none` models an uncaught Python
exception (a `KeyError` on the dictionary access); `some ⟨s, true⟩`
models reaching a `break`. -/
def keyStep (counts : FilterKind → Nat) (s : Session) (key : Nat) :
    Option StepResult :=
  if key = keyE ∧ s.is_face_selected = false then
    cycleBranch counts s .hat .next
  else if key = keyQ ∧ s.is_face_selected = false then
    cycleBranch counts s .hat .prev
  else if key = keyD ∧ s.is_face_selected = false then
    cycleBranch counts s .glasses .next
  else if key = keyA ∧ s.is_face_selected = false then
    cycleBranch counts s .glasses .prev
  else if key = keyW ∧ s.is_face_selected = false then
    cycleBranch counts s .nose .next
  else if key = keyS ∧ s.is_face_selected = false then
    cycleBranch counts s .nose .prev
  else if key = keyC ∧ s.is_face_selected = false then
    cycleBranch counts s .mouth .next
  else if key = keyZ ∧ s.is_face_selected = false then
    cycleBranch counts s .mouth .prev
  else if key = keyF then
    some ⟨toggle s, false⟩
  else if key = keyM ∧ s.is_face_selected = true then
    cycleBranch counts s .face .next
  else if key = keyN ∧ s.is_face_selected = true then
    cycleBranch counts s .face .prev
  else if key = keyL then
    some ⟨s, true⟩
  else
    some ⟨s, false⟩

/-- `FaceFilterSystem.flip_frame` (lines 42-52): `cv2.flip(frame, 1)`,
a horizontal mirror.  On a frame modelled as a list of pixel rows, the
horizontal flip reverses each row. -/
def flipFrame {α : Type} (frame : List (List α)) : List (List α) :=
  frame.map List.reverse

/-- `FaceFilterSystem.process_frame` (lines 54-84), parameterized over
the external collaborators: `read` is the outcome of `self.cap.read()`
(`none` on failure), `cvt` is `cv2.cvtColor(·, COLOR_BGR2RGB)`,
`detect` is `self.face_mesh.process(·).multi_face_landmarks` (a list of
landmark sets, empty when no face is found), `applyF k` is
`self.active_filters[k].apply_filter`, `flip` is `self.flip_frame`, and
`putFPS` is the `cv2.putText` FPS overlay.  On read failure it returns
`None`; otherwise it flips the frame, runs detection on the
color-converted flipped frame, folds every active filter over every
detected landmark set onto the one shared frame, overlays the FPS text
and returns the frame. -/
def processFrame {Frame L : Type} (read : Option Frame)
    (cvt flip putFPS : Frame → Frame) (detect : Frame → List L)
    (applyF : FilterKind → Frame → L → Frame) (kinds : List FilterKind) :
    Option Frame :=
  match read with
  | none => none
  | some frame0 =>
    let frame1 := flip frame0
    let lms := detect (cvt frame1)
    let frame2 := lms.foldl
      (fun fr lm => kinds.foldl (fun fr k => applyF k fr lm) fr) frame1
    some (putFPS frame2)

/-- The external inputs consumed by one iteration of the main loop: the
capture read outcome, the landmark sets the model reports for that
frame, and the key returned by `cv2.waitKey(1) & 0xFF`. -/
structure IterIn (Frame L : Type) : Type where
  read : Option Frame
  lms : List L
  key : Nat

/-- How the `while` loop of `FaceFilterSystem.run` ends:
`capClosed`  — `self.cap.isOpened()` became false / stream exhausted;
`readFailure` — `process_frame` returned `None` and the loop `break`s;
`quitKey` — the `l` key `break`s;
`keyError` — an uncaught exception escapes the loop body. -/
inductive ExitReason : Type
  | capClosed
  | readFailure
  | quitKey
  | keyError
deriving DecidableEq, Repr

/-- The `while self.cap.isOpened()` loop of `FaceFilterSystem.run`
(lines 90-153) over a finite stream of per-iteration external inputs:
process a frame (break on `None`), show it, poll a key and run the
`if`/`elif` chain, breaking on the quit key. -/
def runLoop {Frame L : Type} (counts : FilterKind → Nat)
    (cvt flip putFPS : Frame → Frame)
    (applyF : FilterKind → Frame → L → Frame) (s : Session) :
    List (IterIn Frame L) → Session × ExitReason
  | [] => (s, .capClosed)
  | it :: rest =>
    match processFrame it.read cvt flip putFPS (fun _ => it.lms) applyF
        s.active_filters.kinds with
    | none => (s, .readFailure)
    | some _ =>
      match keyStep counts s it.key with
      | none => (s, .keyError)
      | some r =>
        if r.quit then (r.session, .quitKey)
        else runLoop counts cvt flip putFPS applyF r.session rest

/-- Events on the video-capture resource. -/
inductive Event : Type
  | acquire
  | release
deriving DecidableEq, Repr

/-- The resource events of one program execution:
`cv2.VideoCapture(...)` is called once in `__init__` (line 19), and
`self.cap.release()` (line 155) runs right after the loop — on every
loop exit, except when an exception propagates out of `run` (the
release is not inside a `try`/`finally`). -/
def runEvents {Frame L : Type} (counts : FilterKind → Nat)
    (cvt flip putFPS : Frame → Frame)
    (applyF : FilterKind → Frame → L → Frame) (s : Session)
    (inputs : List (IterIn Frame L)) : List Event :=
  Event.acquire ::
    (if (runLoop counts cvt flip putFPS applyF s inputs).2 = ExitReason.keyError
     then [] else [Event.release])

/-- `max_num_faces=2` in the `FaceMesh` configuration
(`FaceFilterSystem.__init__`, line 26): the landmark provider reports at
most this many landmark sets per frame. -/
def maxNumFaces : Nat := 2

/-! Helper lemmas. -/

theorem emod_sub_one_emod (m n : Int) : (m % n - 1) % n = (m - 1) % n := by
  conv_lhs => rw [Int.sub_emod]
  rw [Int.emod_emod_of_dvd _ dvd_rfl, ← Int.sub_emod]

theorem cycleDir_mem (d : Direction) (idx : Int) (n : Nat) (h : 0 < n) :
    0 ≤ cycleDir d idx n ∧ cycleDir d idx n < (n : Int) := by
  have hn : (0 : Int) < (n : Int) := by exact_mod_cast h
  have hne : (n : Int) ≠ 0 := ne_of_gt hn
  cases d with
  | next => exact ⟨Int.emod_nonneg _ hne, Int.emod_lt_of_pos _ hn⟩
  | prev => exact ⟨Int.emod_nonneg _ hne, Int.emod_lt_of_pos _ hn⟩

theorem cycleFold_mem (n : Nat) (h : 0 < n) (ds : List Direction) :
    ∀ i : Int, 0 ≤ i → i < (n : Int) →
      0 ≤ ds.foldl (fun i d => cycleDir d i n) i ∧
        ds.foldl (fun i d => cycleDir d i n) i < (n : Int) := by
  induction ds with
  | nil => intro i h0 h1; exact ⟨h0, h1⟩
  | cons d ds ih =>
    intro i h0 h1
    have hd := cycleDir_mem d i n h
    simpa [List.foldl] using ih (cycleDir d i n) hd.1 hd.2

theorem iterate_cycleNext (n : Nat) (h : 0 < n) (k : Nat) :
    ∀ idx : Int, 0 ≤ idx → idx < (n : Int) →
      (fun i => cycleNext i n)^[k] idx = (idx + k) % (n : Int) := by
  have hn : (0 : Int) < (n : Int) := by exact_mod_cast h
  have hne : (n : Int) ≠ 0 := ne_of_gt hn
  induction k with
  | zero =>
    intro idx h0 h1
    simpa using (Int.emod_eq_of_lt h0 h1).symm
  | succ k ih =>
    intro idx h0 h1
    rw [Function.iterate_succ_apply]
    have hmem := cycleDir_mem .next idx n h
    rw [ih (cycleNext idx n) hmem.1 hmem.2]
    show ((idx + 1) % (n : Int) + (k : Int)) % (n : Int) = _
    rw [Int.emod_add_emod]
    congr 1
    push_cast
    ring

/-! Claim theorems. -/

/-- C1: for every asset store with at least one asset, after any
sequence of cycle-next / cycle-prev commands starting from index 0, the
current selection index stays in `[0, assetCount)`. -/
theorem cycle_index_always_in_range (n : Nat) (ds : List Direction)
    (h : 1 ≤ n) :
    0 ≤ cycleFrom0 n ds ∧ cycleFrom0 n ds < (n : Int) := by
  have hn : (0 : Int) < (n : Int) := by exact_mod_cast h
  exact cycleFold_mem n h ds 0 le_rfl hn

/-- Closed instance of `cycle_index_always_in_range` at a concrete
store size and command sequence. -/
theorem cycle_index_always_in_range_witness :
    0 ≤ cycleFrom0 3 [.next, .prev, .prev] ∧
      cycleFrom0 3 [.next, .prev, .prev] < (3 : Int) :=
  cycle_index_always_in_range 3 [.next, .prev, .prev] (by decide)

/-- C2: on a store with `n ≥ 1` assets, from any selection index,
`n` cycle-next commands return the index to its original value, and a
cycle-prev immediately after a cycle-next is the identity. -/
theorem cycle_period_and_inverse (n : Nat) (idx : Int) (h : 1 ≤ n)
    (h0 : 0 ≤ idx) (h1 : idx < (n : Int)) :
    (fun i => cycleNext i n)^[n] idx = idx ∧
      cyclePrev (cycleNext idx n) n = idx := by
  constructor
  · rw [iterate_cycleNext n h n idx h0 h1, Int.add_emod_self]
    exact Int.emod_eq_of_lt h0 h1
  · show ((idx + 1) % (n : Int) - 1) % (n : Int) = idx
    rw [emod_sub_one_emod, add_sub_cancel_right]
    exact Int.emod_eq_of_lt h0 h1

/-- Closed instance of `cycle_period_and_inverse` on a two-asset store
at index 1. -/
theorem cycle_period_and_inverse_witness :
    (fun i => cycleNext i 2)^[2] 1 = 1 ∧ cyclePrev (cycleNext 1 2) 2 = 1 :=
  cycle_period_and_inverse 2 1 (by decide) (by decide) (by decide)

/-- C3: from any STANDARD-configuration session, whatever the four
selection indices, the toggle key branch applied twice yields the
STANDARD configuration with all selection indices 0 (the initial
session state); the initial session state is STANDARD with all indices
0. -/
theorem toggle_twice_resets_standard (counts : FilterKind → Nat)
    (g h n m : Int) :
    keyStep counts ⟨false, .standard g h n m⟩ keyF
        = some ⟨toggle ⟨false, .standard g h n m⟩, false⟩ ∧
      toggle (toggle ⟨false, .standard g h n m⟩) = initSession ∧
      initSession = ⟨false, .standard 0 0 0 0⟩ :=
  ⟨rfl, rfl, rfl⟩

/-- C4: key dispatch — the four standard cycle-key pairs are ignored in
FACE_MASK state and the face-mask cycle keys are ignored in STANDARD
state (session returned unchanged, no error); the toggle key flips the
session state unconditionally; the quit key breaks the loop; any
unrecognized key leaves the session unchanged and raises no error. -/
theorem key_dispatch (counts : FilterKind → Nat) (s : Session) (key : Nat) :
    (s.is_face_selected = true → key ∈ standardCycleKeys →
      keyStep counts s key = some ⟨s, false⟩) ∧
    (s.is_face_selected = false → key ∈ faceCycleKeys →
      keyStep counts s key = some ⟨s, false⟩) ∧
    keyStep counts s keyF = some ⟨toggle s, false⟩ ∧
    (toggle s).is_face_selected = !s.is_face_selected ∧
    keyStep counts s keyL = some ⟨s, true⟩ ∧
    (key ∉ recognizedKeys → keyStep counts s key = some ⟨s, false⟩) := by
  refine ⟨?_, ?_, ?_, ?_, ?_, ?_⟩
  · intro hf hk
    fin_cases hk <;>
      simp [keyStep, hf, keyE, keyQ, keyD, keyA, keyW, keyS, keyC, keyZ,
        keyF, keyM, keyN, keyL]
  · intro hf hk
    fin_cases hk <;>
      simp [keyStep, hf, keyE, keyQ, keyD, keyA, keyW, keyS, keyC, keyZ,
        keyF, keyM, keyN, keyL]
  · simp [keyStep, keyE, keyQ, keyD, keyA, keyW, keyS, keyC, keyZ, keyF]
  · simp [toggle]
  · rcases hs : s.is_face_selected <;>
      simp [keyStep, hs, keyE, keyQ, keyD, keyA, keyW, keyS, keyC, keyZ,
        keyF, keyM, keyN, keyL]
  · intro hk
    simp only [recognizedKeys, standardCycleKeys, faceCycleKeys,
      List.mem_append, List.mem_cons, List.mem_singleton,
      List.not_mem_nil, or_false, not_or] at hk
    simp [keyStep, hk]

/-- Closed instances of `key_dispatch`: a standard cycle key in
FACE_MASK state, a face cycle key in STANDARD state, and an
unrecognized key, each leaving the session unchanged. -/
theorem key_dispatch_witness :
    keyStep (fun _ => 1) ⟨true, .faceMask 0⟩ keyE
        = some ⟨⟨true, .faceMask 0⟩, false⟩ ∧
      keyStep (fun _ => 1) initSession keyM = some ⟨initSession, false⟩ ∧
      keyStep (fun _ => 1) initSession 120 = some ⟨initSession, false⟩ :=
  ⟨(key_dispatch (fun _ => 1) ⟨true, .faceMask 0⟩ keyE).1 rfl (by decide),
    (key_dispatch (fun _ => 1) initSession keyM).2.1 rfl (by decide),
    (key_dispatch (fun _ => 1) initSession 120).2.2.2.2.2 (by decide)⟩

/-- C5: when detection reports zero landmark sets, no filter is applied
(the result does not depend on the apply functions at all), the frame
passes through changed only by the flip and the FPS overlay, and the
loop continues with the next iteration, session unchanged. -/
theorem no_faces_passthrough {Frame L : Type} (cvt flip putFPS : Frame → Frame)
    (applyF applyF2 : FilterKind → Frame → L → Frame) (kinds : List FilterKind)
    (frame : Frame) (counts : FilterKind → Nat) (s : Session)
    (rest : List (IterIn Frame L)) :
    processFrame (some frame) cvt flip putFPS (fun _ => ([] : List L)) applyF kinds
        = some (putFPS (flip frame)) ∧
      processFrame (some frame) cvt flip putFPS (fun _ => []) applyF kinds
        = processFrame (some frame) cvt flip putFPS (fun _ => []) applyF2 kinds ∧
      runLoop counts cvt flip putFPS applyF s
          ({ read := some frame, lms := [], key := 255 } :: rest)
        = runLoop counts cvt flip putFPS applyF s rest :=
  ⟨rfl, rfl, rfl⟩

/-- C6: a failed capture read makes `process_frame` return `None`, the
loop then `break`s with the stream treated as ended (no exception), and
the capture resource is still released exactly once. -/
theorem read_failure_graceful {Frame L : Type} (cvt flip putFPS : Frame → Frame)
    (applyF : FilterKind → Frame → L → Frame) (counts : FilterKind → Nat)
    (s : Session) (lms : List L) (key : Nat) (rest : List (IterIn Frame L)) :
    processFrame (none : Option Frame) cvt flip putFPS (fun _ => lms) applyF
        s.active_filters.kinds = none ∧
      runLoop counts cvt flip putFPS applyF s
          ({ read := none, lms := lms, key := key } :: rest)
        = (s, ExitReason.readFailure) ∧
      (runEvents counts cvt flip putFPS applyF s
          ({ read := none, lms := lms, key := key } :: rest)).count
        Event.release = 1 :=
  ⟨rfl, rfl, rfl⟩

set_option maxHeartbeats 1600000 in
theorem keyStep_consistent (counts : FilterKind → Nat) (s : Session)
    (key : Nat) (hs : s.consistent = true) :
    ∃ r : StepResult, keyStep counts s key = some r ∧
      r.session.consistent = true := by
  obtain ⟨b, af⟩ := s
  cases af with
  | standard g h n m =>
    have hb : b = false := by simpa [Session.consistent] using hs
    subst hb
    generalize hko : keyStep counts ⟨false, ActiveFilters.standard g h n m⟩ key = o
    unfold keyStep at hko
    simp only [eq_self_iff_true, and_true, Bool.false_eq_true, and_false,
      if_false] at hko
    repeat' split at hko
    all_goals subst hko
    all_goals exact ⟨_, rfl, rfl⟩
  | faceMask i =>
    have hb : b = true := by simpa [Session.consistent] using hs
    subst hb
    generalize hko : keyStep counts ⟨true, ActiveFilters.faceMask i⟩ key = o
    unfold keyStep at hko
    simp only [eq_self_iff_true, and_true, Bool.true_eq_false, and_false,
      if_false] at hko
    repeat' split at hko
    all_goals subst hko
    all_goals exact ⟨_, rfl, rfl⟩

theorem runLoop_no_keyError {Frame L : Type} (counts : FilterKind → Nat)
    (cvt flip putFPS : Frame → Frame)
    (applyF : FilterKind → Frame → L → Frame)
    (inputs : List (IterIn Frame L)) :
    ∀ s : Session, s.consistent = true →
      (runLoop counts cvt flip putFPS applyF s inputs).2
        ≠ ExitReason.keyError := by
  induction inputs with
  | nil => intro s _; simp [runLoop]
  | cons it rest ih =>
    intro s hs
    obtain ⟨r, hr, hr2⟩ := keyStep_consistent counts s it.key hs
    cases hread : it.read with
    | none => simp [runLoop, processFrame, hread]
    | some f =>
      simp only [runLoop, processFrame, hread, hr]
      cases hq : r.quit with
      | true => simp
      | false => simpa using ih r.session hr2

/-- C7: over any run, the capture handle is acquired exactly once (in
`__init__`) and released exactly once (after the loop), on every exit
path — end of stream, read failure or quit key — given any consistent
starting session (every reachable session is consistent, so no
exception can skip the release). -/
theorem capture_acquire_release_once {Frame L : Type}
    (counts : FilterKind → Nat) (cvt flip putFPS : Frame → Frame)
    (applyF : FilterKind → Frame → L → Frame) (s : Session)
    (hs : s.consistent = true) (inputs : List (IterIn Frame L)) :
    (runEvents counts cvt flip putFPS applyF s inputs).count
        Event.acquire = 1 ∧
      (runEvents counts cvt flip putFPS applyF s inputs).count
        Event.release = 1 := by
  have hne := runLoop_no_keyError counts cvt flip putFPS applyF inputs s hs
  unfold runEvents
  rw [if_neg hne]
  decide

/-- Closed instance of `capture_acquire_release_once` starting from the
initial session. -/
theorem capture_acquire_release_once_witness :
    (runEvents (fun _ => 1) id id id (fun _ f _ => f) initSession
        ([] : List (IterIn Unit Unit))).count Event.acquire = 1 ∧
      (runEvents (fun _ => 1) id id id (fun _ f _ => f) initSession
        ([] : List (IterIn Unit Unit))).count Event.release = 1 :=
  capture_acquire_release_once (fun _ => 1) id id id (fun _ f _ => f)
    initSession rfl []

theorem foldl_append_map {L : Type} (kinds : List FilterKind) :
    ∀ (fr : List (L × FilterKind)) (lm : L),
      kinds.foldl (fun fr k => fr ++ [(lm, k)]) fr
        = fr ++ kinds.map (fun k => (lm, k)) := by
  induction kinds with
  | nil => intro fr lm; simp
  | cons k ks ih => intro fr lm; simp [List.foldl, ih]

theorem foldl_trace {L : Type} (kinds : List FilterKind) (lms : List L) :
    ∀ fr : List (L × FilterKind),
      lms.foldl (fun fr lm => kinds.foldl (fun fr k => fr ++ [(lm, k)]) fr) fr
        = fr ++ lms.flatMap (fun lm => kinds.map (fun k => (lm, k))) := by
  induction lms with
  | nil => intro fr; simp
  | cons lm lms ih =>
    intro fr
    simp only [List.foldl_cons]
    rw [foldl_append_map, ih]
    simp

/-- C8: per frame, recording every `apply_filter` invocation as a
(landmark set, kind) pair appended to the shared output frame shows the
filters are applied to each detected face in detection order, with the
active kinds in their fixed dictionary order inside each face, all onto
the one accumulator frame; in the STANDARD configuration the kind order
is glasses, hat, nose, mouth. -/
theorem filters_applied_in_order {L : Type} (lms : List L)
    (af : ActiveFilters) (frame0 : List (L × FilterKind))
    (g h n m : Int) :
    processFrame (some frame0) id id id (fun _ => lms)
        (fun k fr lm => fr ++ [(lm, k)]) af.kinds
      = some (frame0 ++ lms.flatMap (fun lm => af.kinds.map (fun k => (lm, k)))) ∧
    (ActiveFilters.standard g h n m).kinds
      = [.glasses, .hat, .nose, .mouth] := by
  constructor
  · simp [processFrame, foldl_trace]
  · rfl

theorem flipFrame_getD {α : Type} (frame : List (List α)) :
    ∀ r : Nat, (flipFrame frame).getD r [] = (frame.getD r []).reverse := by
  induction frame with
  | nil => intro r; simp [flipFrame]
  | cons row rows ih =>
    intro r
    cases r with
    | zero => simp [flipFrame]
    | succ r => simpa [flipFrame] using ih r

theorem reverse_getD {α : Type} (l : List α) (c : Nat) (hc : c < l.length)
    (p : α) : l.reverse.getD c p = l.getD (l.length - 1 - c) p := by
  rw [List.getD_eq_getElem?_getD, List.getElem?_reverse hc,
    ← List.getD_eq_getElem?_getD]

/-- C9: the frame is mirrored before anything else happens to it —
`flip_frame` maps the pixel at column `c` of a row to column
`width - 1 - c`, and `process_frame` on a frame with the real flip is
the same computation as on the pre-flipped frame with no flip, so
landmark detection and all filter compositing see only the mirrored
frame. -/
theorem frame_mirrored_before_processing {α L : Type}
    (frame : List (List α)) (r c : Nat) (p : α)
    (hc : c < (frame.getD r []).length)
    (cvt putFPS : List (List α) → List (List α))
    (detect : List (List α) → List L)
    (applyF : FilterKind → List (List α) → L → List (List α))
    (kinds : List FilterKind) :
    ((flipFrame frame).getD r []).getD c p
        = (frame.getD r []).getD ((frame.getD r []).length - 1 - c) p ∧
      processFrame (some frame) cvt flipFrame putFPS detect applyF kinds
        = processFrame (some (flipFrame frame)) cvt id putFPS detect applyF
            kinds := by
  constructor
  · rw [flipFrame_getD, reverse_getD _ _ hc]
  · rfl

/-- Closed instance of `frame_mirrored_before_processing` on a one-row,
three-pixel frame. -/
theorem frame_mirrored_before_processing_witness :
    (((flipFrame [[1, 2, 3]]).getD 0 []).getD 0 0
        = (([[1, 2, 3]] : List (List Nat)).getD 0 []).getD
            ((([[1, 2, 3]] : List (List Nat)).getD 0 []).length - 1 - 0) 0) ∧
      processFrame (some [[1, 2, 3]]) id flipFrame id
          (fun _ => ([] : List Unit)) (fun _ f _ => f) []
        = processFrame (some (flipFrame [[1, 2, 3]])) id id id
            (fun _ => ([] : List Unit)) (fun _ f _ => f) [] :=
  frame_mirrored_before_processing [[1, 2, 3]] 0 0 0 (by decide) id id
    (fun _ => ([] : List Unit)) (fun _ f _ => f) []

theorem foldl_count_inner (kinds : List FilterKind) :
    ∀ fr : Nat, kinds.foldl (fun fr _ => fr + 1) fr = fr + kinds.length := by
  induction kinds with
  | nil => intro fr; simp
  | cons k ks ih => intro fr; simp [List.foldl, ih]; omega

theorem foldl_count {L : Type} (kinds : List FilterKind) (lms : List L) :
    ∀ fr : Nat,
      lms.foldl (fun fr _ => kinds.foldl (fun fr _ => fr + 1) fr) fr
        = fr + lms.length * kinds.length := by
  induction lms with
  | nil => intro fr; simp
  | cons lm lms ih =>
    intro fr
    simp only [List.foldl_cons]
    rw [foldl_count_inner, ih]
    simp only [List.length_cons]
    ring

/-- C10: the landmark provider is configured with `max_num_faces = 2`,
so it reports at most `maxNumFaces` landmark sets per frame; counting
`apply_filter` invocations in `process_frame` shows each of the
reported landmark sets is processed once per active filter, and the
number of landmark sets processed is at most 2. -/
theorem at_most_two_faces_processed {L : Type} (lms : List L)
    (kinds : List FilterKind) (hlen : lms.length ≤ maxNumFaces) :
    processFrame (some 0) id id id (fun _ => lms) (fun _ fr _ => fr + 1)
        kinds = some (lms.length * kinds.length) ∧
      lms.length ≤ 2 := by
  constructor
  · simp [processFrame, foldl_count]
  · simpa [maxNumFaces] using hlen

/-- Closed instance of `at_most_two_faces_processed` with two faces and
one active filter. -/
theorem at_most_two_faces_processed_witness :
    processFrame (some 0) id id id (fun _ => [10, 20])
        (fun _ fr _ => fr + 1) [.glasses]
      = some ([10, 20].length * [FilterKind.glasses].length) ∧
      [10, 20].length ≤ 2 :=
  at_most_two_faces_processed [10, 20] [.glasses] (by decide)

end FaceFilters
